import Mathlib

/-!
Verification development for the gogcli Gmail command layer
(`internal/cmd/gmail_messages_modify.go`): the outbound mail composition
engine (`GmailMessagesForwardCmd.Run`, `addAttachmentToMultipart`,
`encodeWeb64`) and the label-mutation resolver (`GmailMessagesModifyCmd.Run`).

Go strings are modelled as Lean `String`s (Go string concatenation is byte
concatenation, which agrees with `String.append` on the UTF-8 texts involved);
raw binary payloads are modelled as `List Nat` byte lists.
-/

/-- UTF-8 encoding of a single character, as byte values. -/
def utf8EncodeChar (c : Char) : List Nat :=
  let n := c.toNat
  if n < 0x80 then [n]
  else if n < 0x800 then [0xC0 + n / 64, 0x80 + n % 64]
  else if n < 0x10000 then [0xE0 + n / 4096, 0x80 + (n / 64) % 64, 0x80 + n % 64]
  else [0xF0 + n / 262144, 0x80 + (n / 4096) % 64, 0x80 + (n / 64) % 64, 0x80 + n % 64]

/-- The byte sequence of a string (Go `[]byte(s)`). -/
def utf8Bytes (s : String) : List Nat :=
  (s.data.map utf8EncodeChar).flatten

/-- UTF-8 decoding of a byte list into characters; `none` on malformed input. -/
def utf8DecodeChars : List Nat → Option (List Char)
  | [] => some []
  | b :: bs =>
    if b < 0x80 then
      (utf8DecodeChars bs).map (fun cs => Char.ofNat b :: cs)
    else if b < 0xC0 then none
    else if b < 0xE0 then
      match bs with
      | b1 :: bs1 =>
        if 0x80 ≤ b1 ∧ b1 < 0xC0 then
          let n := (b - 0xC0) * 64 + (b1 - 0x80)
          if n < 0x80 then none
          else (utf8DecodeChars bs1).map (fun cs => Char.ofNat n :: cs)
        else none
      | _ => none
    else if b < 0xF0 then
      match bs with
      | b1 :: b2 :: bs2 =>
        if (0x80 ≤ b1 ∧ b1 < 0xC0) ∧ (0x80 ≤ b2 ∧ b2 < 0xC0) then
          let n := (b - 0xE0) * 4096 + (b1 - 0x80) * 64 + (b2 - 0x80)
          if n < 0x800 ∨ (0xD800 ≤ n ∧ n < 0xE000) then none
          else (utf8DecodeChars bs2).map (fun cs => Char.ofNat n :: cs)
        else none
      | _ => none
    else if b < 0xF8 then
      match bs with
      | b1 :: b2 :: b3 :: bs3 =>
        if (0x80 ≤ b1 ∧ b1 < 0xC0) ∧ (0x80 ≤ b2 ∧ b2 < 0xC0) ∧ (0x80 ≤ b3 ∧ b3 < 0xC0) then
          let n := (b - 0xF0) * 262144 + (b1 - 0x80) * 4096 + (b2 - 0x80) * 64 + (b3 - 0x80)
          if n < 0x10000 ∨ 0x110000 ≤ n then none
          else (utf8DecodeChars bs3).map (fun cs => Char.ofNat n :: cs)
        else none
      | _ => none
    else none

/-- Alphabet of URL-safe base64 (Go `base64.URLEncoding`). -/
def b64UrlChars : List Char :=
  "ABCDEFGHIJKLMNOPQRSTUVWXYZabcdefghijklmnopqrstuvwxyz0123456789-_".data

/-- Alphabet of standard base64 (Go `base64.StdEncoding`). -/
def b64StdChars : List Char :=
  "ABCDEFGHIJKLMNOPQRSTUVWXYZabcdefghijklmnopqrstuvwxyz0123456789+/".data

/-- Character of a base64 alphabet at a 6-bit index. -/
def b64Char (alpha : List Char) (i : Nat) : Char :=
  alpha.getD i 'A'

/-- Base64 encoding (with padding) of a byte list over a given alphabet. -/
def b64EncodeList (alpha : List Char) : List Nat → List Char
  | a :: b :: c :: rest =>
    b64Char alpha (a / 4) :: b64Char alpha ((a % 4) * 16 + b / 16) ::
    b64Char alpha ((b % 16) * 4 + c / 64) :: b64Char alpha (c % 64) ::
    b64EncodeList alpha rest
  | [a, b] =>
    [b64Char alpha (a / 4), b64Char alpha ((a % 4) * 16 + b / 16),
     b64Char alpha ((b % 16) * 4), '=']
  | [a] =>
    [b64Char alpha (a / 4), b64Char alpha ((a % 4) * 16), '=', '=']
  | [] => []

/-- encodeWeb64 encodes a string to URL-safe base64 (web-safe); Go
`base64.URLEncoding.EncodeToString([]byte(s))`. -/
def encodeWeb64 (s : String) : String :=
  ⟨b64EncodeList b64UrlChars (utf8Bytes s)⟩

/-- Standard base64 encoding of raw bytes, as written by
`base64.NewEncoder(base64.StdEncoding, part)` (no line wrapping). -/
def encodeStd64Bytes (bs : List Nat) : String :=
  ⟨b64EncodeList b64StdChars bs⟩

/-- Value of one base64 character (URL-safe when `url`, standard otherwise). -/
def b64Val (url : Bool) (c : Char) : Option Nat :=
  if 'A' ≤ c ∧ c ≤ 'Z' then some (c.toNat - 65)
  else if 'a' ≤ c ∧ c ≤ 'z' then some (c.toNat - 97 + 26)
  else if '0' ≤ c ∧ c ≤ '9' then some (c.toNat - 48 + 52)
  else if url = true ∧ c = '-' then some 62
  else if url = true ∧ c = '_' then some 63
  else if url = false ∧ c = '+' then some 62
  else if url = false ∧ c = '/' then some 63
  else none

/-- Base64 decoding of a character list; tolerates an unpadded final group,
mirroring the lenient handling of remote-supplied attachment data. -/
def b64DecodeList (url : Bool) : List Char → Option (List Nat)
  | [] => some []
  | [_] => none
  | [c1, c2] => do
    let v1 ← b64Val url c1
    let v2 ← b64Val url c2
    some [v1 * 4 + v2 / 16]
  | [c1, c2, c3] => do
    let v1 ← b64Val url c1
    let v2 ← b64Val url c2
    let v3 ← b64Val url c3
    some [v1 * 4 + v2 / 16, (v2 % 16) * 16 + v3 / 4]
  | [c1, c2, '=', '='] => do
    let v1 ← b64Val url c1
    let v2 ← b64Val url c2
    some [v1 * 4 + v2 / 16]
  | [c1, c2, c3, '='] => do
    let v1 ← b64Val url c1
    let v2 ← b64Val url c2
    let v3 ← b64Val url c3
    some [v1 * 4 + v2 / 16, (v2 % 16) * 16 + v3 / 4]
  | c1 :: c2 :: c3 :: c4 :: rest => do
    let v1 ← b64Val url c1
    let v2 ← b64Val url c2
    let v3 ← b64Val url c3
    let v4 ← b64Val url c4
    let tail ← b64DecodeList url rest
    some ((v1 * 4 + v2 / 16) :: ((v2 % 16) * 16 + v3 / 4) :: ((v3 % 4) * 64 + v4) :: tail)

/-- Modelled from the spec: `decodeBase64URLBytes` (called from
`addAttachmentToMultipart` and body decoding; its definition is not under
`src/`) decodes a URL-safe base64 string into raw bytes, `none` on failure. -/
def decodeBase64URLBytes (s : String) : Option (List Nat) :=
  b64DecodeList true s.data

/-- Modelled from the spec: decoding of URL-safe base64 `bodyData` into the
text it carries (§4.2 Decoding); failure at either stage yields `none`. -/
def decodeWeb64String (s : String) : Option String :=
  (decodeBase64URLBytes s).bind fun bs =>
    (utf8DecodeChars bs).map fun cs => ⟨cs⟩

/-- One node of a fetched message's MIME tree (`gmail.MessagePart`):
mime type, filename, headers, optional transport-encoded body data, remote
attachment handle, and child parts. -/
inductive MessagePart : Type where
  | mk (mimeType : String) (filename : String) (headers : List (String × String))
       (bodyData : Option String) (attachmentId : String) (parts : List MessagePart)

def MessagePart.mimeType : MessagePart → String
  | .mk m _ _ _ _ _ => m

def MessagePart.filename : MessagePart → String
  | .mk _ f _ _ _ _ => f

def MessagePart.headers : MessagePart → List (String × String)
  | .mk _ _ h _ _ _ => h

def MessagePart.bodyData : MessagePart → Option String
  | .mk _ _ _ b _ _ => b

def MessagePart.attachmentId : MessagePart → String
  | .mk _ _ _ _ a _ => a

def MessagePart.parts : MessagePart → List MessagePart
  | .mk _ _ _ _ _ p => p

mutual

/-- Pre-order flattening of a MIME part tree (node before children,
children left to right); the traversal order of §4.2 and §4.3. -/
def allParts : MessagePart → List MessagePart
  | .mk m f h b a kids => .mk m f h b a kids :: allPartsList kids

def allPartsList : List MessagePart → List MessagePart
  | [] => []
  | p :: ps => allParts p ++ allPartsList ps

end

/-- Modelled from the spec: the Header Extractor `headerValue` (§4.1; its
definition is not under `src/`) returns the value of the first header whose
name matches case-insensitively, or the empty string if absent. -/
def headerValue (p : MessagePart) (name : String) : String :=
  match p.headers.find? (fun h => h.1.toLower = name.toLower) with
  | some h => h.2
  | none => ""

/-- Decoded body text a part contributes: present only when `bodyData` is
present, non-empty, and decodes (§4.2 steps 1-2 and the Decoding rule). -/
def bodyOfData (p : MessagePart) : Option String :=
  match p.bodyData with
  | none => none
  | some d => if d = "" then none else decodeWeb64String d

/-- A part's contribution as a `text/plain` body candidate. -/
def plainBody (p : MessagePart) : Option String :=
  if p.mimeType = "text/plain" then bodyOfData p else none

/-- A part's contribution as a `text/html` fallback candidate. -/
def htmlBody (p : MessagePart) : Option String :=
  if p.mimeType = "text/html" then bodyOfData p else none

/-- Modelled from the spec: the Body Selector `bestBodyForDisplay` (§4.2; its
definition is not under `src/`): first `text/plain` candidate in pre-order
wins; otherwise the first `text/html` candidate is returned with the
fallback flag set; otherwise the empty string. -/
def bestBodyForDisplay (t : MessagePart) : String × Bool :=
  match (allParts t).findSome? plainBody with
  | some s => (s, false)
  | none =>
    match (allParts t).findSome? htmlBody with
    | some s => (s, true)
    | none => ("", false)

/-- Attachment descriptor handed from the collector to the composer
(Go `attachmentInfo`). -/
structure AttachmentInfo where
  attachmentId : String
  filename : String
  mimeType : String
deriving DecidableEq, Repr

/-- Index (in pre-order) of the body part chosen by the Body Selector:
the first plain candidate, else the first html candidate. -/
def chosenBodyIdx (t : MessagePart) : Option Nat :=
  match (allParts t).findIdx? (fun p => (plainBody p).isSome) with
  | some i => some i
  | none => (allParts t).findIdx? (fun p => (htmlBody p).isSome)

/-- Modelled from the spec: the Attachment Collector `collectAttachments`
(§4.3; its definition is not under `src/`): every leaf part with a non-empty
filename that is not the body part chosen by the Body Selector, in pre-order
left-to-right traversal order. -/
def collectAttachments (t : MessagePart) : List AttachmentInfo :=
  ((allParts t).enum).filterMap fun ip =>
    if ip.2.parts.isEmpty ∧ ip.2.filename ≠ "" ∧ some ip.1 ≠ chosenBodyIdx t
    then some ⟨ip.2.attachmentId, ip.2.filename, ip.2.mimeType⟩
    else none

/-- Whitespace predicate of Go `strings.TrimSpace` on the ASCII range plus
the Latin-1 spaces (space, tab, newline, vertical tab, form feed, carriage
return, NEL, NBSP). -/
def isSpaceChar (c : Char) : Bool :=
  c = ' ' ∨ c = '\t' ∨ c = '\n' ∨ c = '\r' ∨
  c.toNat = 11 ∨ c.toNat = 12 ∨ c.toNat = 133 ∨ c.toNat = 160

/-- Go `strings.TrimSpace`: drop leading and trailing whitespace. -/
def trimSpace (s : String) : String :=
  ⟨((s.data.dropWhile isSpaceChar).reverse.dropWhile isSpaceChar).reverse⟩

/-- Events of remote Gmail API calls, in the order the command issues them. -/
inductive RemoteCall : Type where
  | getMessage (id : String)
  | getAttachment (messageId attachmentId : String)
  | send (raw : String)
deriving DecidableEq, Repr

/-- Errors surfaced by `GmailMessagesForwardCmd.Run`, tagged by phase. -/
inductive FwdError : Type where
  | usage (msg : String)
  | fetchMessage
  | sendMessage
deriving DecidableEq, Repr

/-- The `GmailMessagesForwardCmd` flags: message ID argument, `--to`,
optional `--subject`. -/
structure ForwardCmd where
  messageID : String
  toAddr : String
  subject : String
deriving Repr

/-- Boundary collaborators of the forward command (§6): message retrieval,
attachment retrieval (`none` models a remote error), raw-message submission
(returning sent id and thread id), and the boundary the multipart writer
generated for this composition. -/
structure FwdEnv where
  getMessage : String → Option MessagePart
  getAttachment : String → String → Option String
  send : String → Option (String × String)
  boundary : String

/-- Serialized block `multipart.Writer.CreatePart` emits for a non-first
attachment part followed by its base64-encoded data: `\r\n--boundary\r\n`,
the MIME headers sorted by canonical key, a blank line, then the data. -/
def attBlock (b : String) (att : AttachmentInfo) (bytes : List Nat) : String :=
  "\r\n--" ++ b ++ "\r\n" ++
  "Content-Disposition: attachment; filename=\"" ++ att.filename ++ "\"\r\n" ++
  "Content-Transfer-Encoding: base64\r\n" ++
  "Content-Type: " ++ att.mimeType ++ "\r\n" ++
  "\r\n" ++
  encodeStd64Bytes bytes

/-- addAttachmentToMultipart fetches an attachment, decodes its URL-safe
base64 data, and produces the serialized multipart block for it; the error
carries the phase text of the wrapped Go error (the remote error detail
itself is not modelled). -/
def addAttachmentToMultipart (fetch : String → String → Option String)
    (messageID b : String) (att : AttachmentInfo) : Except String String :=
  match fetch messageID att.attachmentId with
  | none => .error "fetching attachment"
  | some data =>
    match decodeBase64URLBytes data with
    | none => .error "decoding attachment data"
    | some bytes => .ok (attBlock b att bytes)

/-- Accumulated effect of the attachment loop: bytes appended to the
multipart buffer, warnings printed to stderr, remote calls issued, and the
number of parts successfully embedded. -/
structure AttAcc where
  body : String
  warnings : List String
  calls : List RemoteCall
  count : Nat
deriving Repr

/-- The `for _, att := range attachments` loop of the forward command: each
failure emits `Warning: failed to attach <filename>: <err>` and continues;
each success appends the attachment's serialized part. -/
def addAtts (fetch : String → String → Option String) (messageID b : String) :
    List AttachmentInfo → AttAcc
  | [] => ⟨"", [], [], 0⟩
  | att :: rest =>
    let acc := addAtts fetch messageID b rest
    let call := RemoteCall.getAttachment messageID att.attachmentId
    match addAttachmentToMultipart fetch messageID b att with
    | .error e =>
      ⟨acc.body, ("Warning: failed to attach " ++ att.filename ++ ": " ++ e) :: acc.warnings,
       call :: acc.calls, acc.count⟩
    | .ok blk => ⟨blk ++ acc.body, acc.warnings, call :: acc.calls, acc.count + 1⟩

/-- The forward preamble plus quoted original body
(`---------- Forwarded message ----------` template, LF newlines, as in the
Go `fmt.Sprintf`). -/
def forwardBodyOf (payload : MessagePart) : String :=
  "---------- Forwarded message ----------" ++
  "\nFrom: " ++ headerValue payload "From" ++
  "\nDate: " ++ headerValue payload "Date" ++
  "\nSubject: " ++ headerValue payload "Subject" ++
  "\nTo: " ++ headerValue payload "To" ++
  "\n\n" ++ (bestBodyForDisplay payload).1

/-- Intermediate result of composing the outgoing MIME message. -/
structure Composed where
  subject : String
  contentType : String
  body : String
  rawMsg : String
  warnings : List String
  attCalls : List RemoteCall
  embedded : Nat
  attachmentsReported : Nat
deriving Repr

/-- Composition phase of `GmailMessagesForwardCmd.Run` (lines 242-299):
header extraction, subject selection, forward body, attachment loop,
multipart serialization (text part first), and the raw RFC2822 message with
CRLF line endings. -/
def composeForward (env : FwdEnv) (messageID toAddr subjectOverride : String)
    (payload : MessagePart) : Composed :=
  let origSubject := headerValue payload "Subject"
  let subject := if subjectOverride = "" then "Fwd: " ++ origSubject else subjectOverride
  let atts := collectAttachments payload
  let b := env.boundary
  let contentType := "multipart/mixed; boundary=\"" ++ b ++ "\""
  let acc := addAtts env.getAttachment messageID b atts
  let body :=
    "--" ++ b ++ "\r\n" ++ "Content-Type: text/plain; charset=utf-8\r\n" ++ "\r\n" ++
    forwardBodyOf payload ++ acc.body ++ ("\r\n--" ++ b ++ "--\r\n")
  let rawMsg :=
    "To: " ++ toAddr ++ "\r\n" ++ ("Subject: " ++ subject ++ "\r\n") ++
    ("Content-Type: " ++ contentType ++ "\r\n") ++ "\r\n" ++ body
  { subject := subject, contentType := contentType, body := body, rawMsg := rawMsg,
    warnings := acc.warnings, attCalls := acc.calls, embedded := acc.count,
    attachmentsReported := atts.length }

/-- Success surface of the forward command: the fields of the emitted JSON
object (`sent`, `threadId`, `to`, `subject`, `forwarded`, `attachments`)
together with the composed message and the observable warnings. -/
structure ForwardSuccess where
  sentId : String
  threadId : String
  toAddr : String
  subject : String
  forwarded : String
  attachments : Nat
  contentType : String
  body : String
  rawMsg : String
  raw : String
  warnings : List String
  embedded : Nat
deriving Repr, Inhabited

/-- Success record assembled from the composition and the send response. -/
def mkSuccess (env : FwdEnv) (messageID toAddr subjectOverride : String)
    (payload : MessagePart) (st : String × String) : ForwardSuccess :=
  let comp := composeForward env messageID toAddr subjectOverride payload
  { sentId := st.1, threadId := st.2, toAddr := toAddr, subject := comp.subject,
    forwarded := messageID, attachments := comp.attachmentsReported,
    contentType := comp.contentType, body := comp.body, rawMsg := comp.rawMsg,
    raw := encodeWeb64 comp.rawMsg, warnings := comp.warnings,
    embedded := comp.embedded }

/-- The transport-encoded bytes submitted to the send API for a given
original payload. -/
def fwdRaw (env : FwdEnv) (messageID toAddr subjectOverride : String)
    (payload : MessagePart) : String :=
  encodeWeb64 (composeForward env messageID toAddr subjectOverride payload).rawMsg

/-- The full remote-call sequence of a forward that reaches the send phase:
the original-message fetch, one attachment fetch per collected descriptor,
then the send. -/
def fwdCalls (env : FwdEnv) (messageID toAddr subjectOverride : String)
    (payload : MessagePart) : List RemoteCall :=
  RemoteCall.getMessage messageID ::
    (composeForward env messageID toAddr subjectOverride payload).attCalls ++
    [RemoteCall.send (fwdRaw env messageID toAddr subjectOverride payload)]

/-- GmailMessagesForwardCmd.Run, with the remote collaborators abstracted
into `FwdEnv`; the second component records every remote call issued, in
order. Validation mirrors the Go code: trimmed message ID first, then
trimmed recipient, both before any remote call. -/
def forwardRun (cmd : ForwardCmd) (env : FwdEnv) :
    Except FwdError ForwardSuccess × List RemoteCall :=
  if trimSpace cmd.messageID = "" then (.error (.usage "message ID is required"), [])
  else if trimSpace cmd.toAddr = "" then (.error (.usage "--to is required"), [])
  else
    match env.getMessage (trimSpace cmd.messageID) with
    | none => (.error .fetchMessage, [.getMessage (trimSpace cmd.messageID)])
    | some payload =>
      match env.send (fwdRaw env (trimSpace cmd.messageID) (trimSpace cmd.toAddr)
          cmd.subject payload) with
      | none => (.error .sendMessage,
          fwdCalls env (trimSpace cmd.messageID) (trimSpace cmd.toAddr) cmd.subject payload)
      | some st =>
        (.ok (mkSuccess env (trimSpace cmd.messageID) (trimSpace cmd.toAddr)
            cmd.subject payload st),
         fwdCalls env (trimSpace cmd.messageID) (trimSpace cmd.toAddr) cmd.subject payload)

/-- Warning (if any) that processing one attachment descriptor produces;
the specification-side characterization of the attachment loop's stderr
output. -/
def warnSpec (fetch : String → String → Option String) (messageID b : String)
    (att : AttachmentInfo) : Option String :=
  match addAttachmentToMultipart fetch messageID b att with
  | .error e => some ("Warning: failed to attach " ++ att.filename ++ ": " ++ e)
  | .ok _ => none

/-- Split a character list at commas. -/
def splitOnComma : List Char → List (List Char)
  | [] => [[]]
  | c :: cs =>
    match splitOnComma cs with
    | [] => if c = ',' then [[], []] else [[c]]
    | g :: gs => if c = ',' then [] :: g :: gs else (c :: g) :: gs

/-- Modelled from the spec: `splitCSV` (called by `GmailMessagesModifyCmd.Run`;
its definition is not under `src/`) splits a comma-separated flag value,
trimming whitespace and dropping empty entries. -/
def splitCSV (s : String) : List String :=
  ((splitOnComma s.data).map (fun cs => trimSpace ⟨cs⟩)).filter (fun x => x ≠ "")

/-- Modelled from the spec: the Label Resolver `resolveLabelIDs` (§4.5; its
definition is not under `src/`) maps each requested name through the fetched
name-to-ID table and silently drops names with no match. -/
def resolveLabelIDs (labels : List String) (idMap : List (String × String)) : List String :=
  labels.filterMap fun n => (idMap.find? (fun e => e.1 = n)).map Prod.snd

/-- The `gmail.BatchModifyMessagesRequest` the modify command submits. -/
structure BatchModifyRequest where
  ids : List String
  addLabelIds : List String
  removeLabelIds : List String
deriving DecidableEq, Repr

/-- GmailMessagesModifyCmd.Run up to the batch-modify submission: validation,
CSV splitting, label resolution, and the archive merge that appends `INBOX`
to the removal set only when it is not already present. -/
def modifyRun (ids : List String) (addLabel removeLabel : String) (archive : Bool)
    (idMap : List (String × String)) : Except String BatchModifyRequest :=
  if ids = [] then .error "must specify --ids"
  else
    let addLabels := splitCSV addLabel
    let removeLabels := splitCSV removeLabel
    if addLabels = [] ∧ removeLabels = [] ∧ archive = false then
      .error "must specify --add-label, --remove-label, and/or --archive"
    else
      let addIDs := resolveLabelIDs addLabels idMap
      let removeIDs := resolveLabelIDs removeLabels idMap
      let removeIDs :=
        if archive then
          if "INBOX" ∈ removeIDs then removeIDs else removeIDs ++ ["INBOX"]
        else removeIDs
      .ok ⟨ids, addIDs, removeIDs⟩

/-- Strip an expected leading character sequence, returning the remainder. -/
def stripPre : List Char → List Char → Option (List Char)
  | [], cs => some cs
  | _ :: _, [] => none
  | p :: ps, c :: cs => if c = p then stripPre ps cs else none

/-- Boundary string declared by a composed `Content-Type` header of the
shape `multipart/mixed; boundary="..."`. -/
def extractBoundary (ct : String) : Option String :=
  match stripPre ("multipart/mixed; boundary=\"".data) ct.data with
  | none => none
  | some rest =>
    match rest.getLast? with
    | some '"' => some ⟨rest.dropLast⟩
    | _ => none

/-- Fixture: a single-part plain-text original message (the shape of the
repository's forward tests: subject `Original Subject`, body `Hello World`). -/
def payloadNoAtt : MessagePart :=
  .mk "text/plain" ""
    [("From", "sender@example.com"), ("To", "me@example.com"),
     ("Subject", "Original Subject"), ("Date", "Mon, 03 Feb 2026 10:00:00 -0800")]
    (some "SGVsbG8gV29ybGQ=") "" []

/-- Fixture: an original message with a text body and one attachment part. -/
def payloadOneAtt : MessagePart :=
  .mk "multipart/mixed" ""
    [("From", "sender@example.com"), ("To", "me@example.com"),
     ("Subject", "Original Subject"), ("Date", "Mon, 03 Feb 2026 10:00:00 -0800")]
    none "" [
      .mk "text/plain" "" [] (some "SGVsbG8gV29ybGQ=") "" [],
      .mk "application/pdf" "file.pdf" [] none "att-1" []
    ]

/-- Fixture: an original message with a text body and two attachment parts. -/
def payloadTwoAtt : MessagePart :=
  .mk "multipart/mixed" ""
    [("From", "sender@example.com"), ("To", "me@example.com"),
     ("Subject", "Original Subject"), ("Date", "Mon, 03 Feb 2026 10:00:00 -0800")]
    none "" [
      .mk "text/plain" "" [] (some "SGVsbG8gV29ybGQ=") "" [],
      .mk "application/pdf" "file.pdf" [] none "att-1" [],
      .mk "image/png" "pic.png" [] none "att-2" []
    ]

/-- Fixture: a multipart/alternative tree carrying an html part before a
plain part. -/
def payloadBoth : MessagePart :=
  .mk "multipart/alternative" "" [] none "" [
    .mk "text/html" "" [] (some "PGI-SGk8L2I-") "" [],
    .mk "text/plain" "" [] (some "SGVsbG8gV29ybGQ=") "" []
  ]

/-- Fixture: environment returning `payloadNoAtt` for message `m1`, failing
every attachment fetch, succeeding on send with boundary `b1`. -/
def envNoAtt : FwdEnv :=
  { getMessage := fun id => if id = "m1" then some payloadNoAtt else none,
    getAttachment := fun _ _ => none,
    send := fun _ => some ("sent123", "t1"),
    boundary := "b1" }

/-- Fixture: environment returning `payloadOneAtt` for `m1`, failing the
attachment fetch, succeeding on send with boundary `b2`. -/
def envOneFail : FwdEnv :=
  { getMessage := fun id => if id = "m1" then some payloadOneAtt else none,
    getAttachment := fun _ _ => none,
    send := fun _ => some ("sent123", "t1"),
    boundary := "b2" }

/-- Fixture: environment returning `payloadTwoAtt` for `m1`, serving only
attachment `att-2` (bytes 0,1,2), succeeding on send with boundary `b3`. -/
def envMixed : FwdEnv :=
  { getMessage := fun id => if id = "m1" then some payloadTwoAtt else none,
    getAttachment := fun _ aid => if aid = "att-2" then some "AAEC" else none,
    send := fun _ => some ("sent123", "t1"),
    boundary := "b3" }

/-- Fixture: forward of `m1` to `recipient@example.com` with no subject
override. -/
def cmdFwd : ForwardCmd :=
  { messageID := "m1", toAddr := "recipient@example.com", subject := "" }

/-- Fixture: same forward with the explicit override
`Custom Forward Subject`. -/
def cmdOverride : ForwardCmd :=
  { messageID := "m1", toAddr := "recipient@example.com", subject := "Custom Forward Subject" }

/-- Success payload of a forward outcome (default record when it failed). -/
def okOf (x : Except FwdError ForwardSuccess) : ForwardSuccess :=
  match x with
  | .ok r => r
  | .error _ => default

/-- Fixture: the success record of forwarding `m1` in `envNoAtt`. -/
def resNoAtt : ForwardSuccess := okOf (forwardRun cmdFwd envNoAtt).1

/-- Fixture: the success record of forwarding `m1` in `envOneFail`. -/
def resOneFail : ForwardSuccess := okOf (forwardRun cmdFwd envOneFail).1

/-- Fixture: the success record of forwarding `m1` in `envMixed` with the
subject override. -/
def resOverride : ForwardSuccess := okOf (forwardRun cmdOverride envMixed).1

/-- Fixture: the remote-call trace of forwarding `m1` in `envNoAtt`. -/
def callsNoAtt : List RemoteCall := (forwardRun cmdFwd envNoAtt).2

/-- Fixture: the remote-call trace of forwarding `m1` in `envOneFail`. -/
def callsOneFail : List RemoteCall := (forwardRun cmdFwd envOneFail).2

/-- Fixture: the remote-call trace of the override forward in `envMixed`. -/
def callsOverride : List RemoteCall := (forwardRun cmdOverride envMixed).2

/-- Fixture: the plain part of `payloadBoth`. -/
def plainPartFix : MessagePart := .mk "text/plain" "" [] (some "SGVsbG8gV29ybGQ=") "" []

/-- Fixture: the html part of `payloadBoth`. -/
def htmlPartFix : MessagePart := .mk "text/html" "" [] (some "PGI-SGk8L2I-") "" []

/-- Fixture: a forward invocation whose message ID is blank after trimming. -/
def cmdBlankId : ForwardCmd :=
  { messageID := "   ", toAddr := "recipient@example.com", subject := "" }

theorem strExt {a b : String} (h : a.data = b.data) : a = b := by
  cases a
  cases b
  exact congrArg String.mk h

theorem addAtts_warnings (fetch : String → String → Option String) (messageID b : String)
    (atts : List AttachmentInfo) :
    (addAtts fetch messageID b atts).warnings = atts.filterMap (warnSpec fetch messageID b) := by
  induction atts with
  | nil => rfl
  | cons att rest ih =>
    simp only [addAtts, warnSpec, List.filterMap_cons]
    rcases h : addAttachmentToMultipart fetch messageID b att with e | blk <;>
      simp [h, ih, warnSpec]

theorem addAtts_count (fetch : String → String → Option String) (messageID b : String)
    (atts : List AttachmentInfo) :
    (addAtts fetch messageID b atts).count =
      (atts.filter (fun att => (addAttachmentToMultipart fetch messageID b att).isOk)).length := by
  induction atts with
  | nil => rfl
  | cons att rest ih =>
    simp only [addAtts, List.filter_cons]
    rcases h : addAttachmentToMultipart fetch messageID b att with e | blk <;>
      simp [h, ih, Except.isOk, Except.toBool]

theorem addAtts_body_of_count_zero (fetch : String → String → Option String)
    (messageID b : String) (atts : List AttachmentInfo)
    (h : (addAtts fetch messageID b atts).count = 0) :
    (addAtts fetch messageID b atts).body = "" := by
  induction atts with
  | nil => rfl
  | cons att rest ih =>
    simp only [addAtts] at h ⊢
    rcases hc : addAttachmentToMultipart fetch messageID b att with e | blk
    · rw [hc] at h
      exact ih h
    · rw [hc] at h
      exact absurd h (Nat.succ_ne_zero _)

theorem stripPre_append (p r : List Char) : stripPre p (p ++ r) = some r := by
  induction p with
  | nil => rfl
  | cons c cs ih => simp [stripPre, ih]

theorem extractBoundary_eq (b : String) :
    extractBoundary ("multipart/mixed; boundary=\"" ++ b ++ "\"") = some b := by
  unfold extractBoundary
  have hd : ("multipart/mixed; boundary=\"" ++ b ++ "\"").data =
      "multipart/mixed; boundary=\"".data ++ (b.data ++ ['"']) := by
    simp [String.data_append, List.append_assoc]
  rw [hd, stripPre_append]
  simp

theorem forwardRun_ok_elim {cmd : ForwardCmd} {env : FwdEnv} {res : ForwardSuccess}
    {calls : List RemoteCall} (h : forwardRun cmd env = (.ok res, calls)) :
    ∃ payload st,
      trimSpace cmd.messageID ≠ "" ∧ trimSpace cmd.toAddr ≠ "" ∧
      env.getMessage (trimSpace cmd.messageID) = some payload ∧
      env.send (fwdRaw env (trimSpace cmd.messageID) (trimSpace cmd.toAddr)
        cmd.subject payload) = some st ∧
      res = mkSuccess env (trimSpace cmd.messageID) (trimSpace cmd.toAddr)
        cmd.subject payload st ∧
      calls = fwdCalls env (trimSpace cmd.messageID) (trimSpace cmd.toAddr)
        cmd.subject payload := by
  unfold forwardRun at h
  by_cases h1 : trimSpace cmd.messageID = ""
  · simp [h1] at h
  · rw [if_neg h1] at h
    by_cases h2 : trimSpace cmd.toAddr = ""
    · simp [h2] at h
    · rw [if_neg h2] at h
      rcases h3 : env.getMessage (trimSpace cmd.messageID) with _ | payload
      · simp [h3] at h
      · simp only [h3] at h
        rcases h4 : env.send (fwdRaw env (trimSpace cmd.messageID) (trimSpace cmd.toAddr)
            cmd.subject payload) with _ | st
        · simp [h4] at h
        · simp only [h4, Prod.mk.injEq, Except.ok.injEq] at h
          exact ⟨payload, st, h1, h2, rfl, h4, h.1.symm, h.2.symm⟩

theorem forwardRun_ok_intro (cmd : ForwardCmd) (env : FwdEnv) (payload : MessagePart)
    (st : String × String)
    (h1 : trimSpace cmd.messageID ≠ "") (h2 : trimSpace cmd.toAddr ≠ "")
    (h3 : env.getMessage (trimSpace cmd.messageID) = some payload)
    (h4 : env.send = fun _ => some st) :
    forwardRun cmd env =
      (.ok (mkSuccess env (trimSpace cmd.messageID) (trimSpace cmd.toAddr)
          cmd.subject payload st),
       fwdCalls env (trimSpace cmd.messageID) (trimSpace cmd.toAddr) cmd.subject payload) := by
  unfold forwardRun
  rw [if_neg h1, if_neg h2]
  simp only [h3, h4]

theorem modifyRun_archive_eq (ids : List String) (addLabel removeLabel : String)
    (idMap : List (String × String)) (h : ids ≠ []) :
    modifyRun ids addLabel removeLabel true idMap =
      .ok ⟨ids, resolveLabelIDs (splitCSV addLabel) idMap,
        if "INBOX" ∈ resolveLabelIDs (splitCSV removeLabel) idMap
        then resolveLabelIDs (splitCSV removeLabel) idMap
        else resolveLabelIDs (splitCSV removeLabel) idMap ++ ["INBOX"]⟩ := by
  unfold modifyRun
  rw [if_neg h]
  simp

theorem modifyRun_archive_elim {ids : List String} {addLabel removeLabel : String}
    {idMap : List (String × String)} {req : BatchModifyRequest}
    (h : modifyRun ids addLabel removeLabel true idMap = .ok req) :
    req = ⟨ids, resolveLabelIDs (splitCSV addLabel) idMap,
      if "INBOX" ∈ resolveLabelIDs (splitCSV removeLabel) idMap
      then resolveLabelIDs (splitCSV removeLabel) idMap
      else resolveLabelIDs (splitCSV removeLabel) idMap ++ ["INBOX"]⟩ := by
  by_cases hids : ids = []
  · subst hids
    simp [modifyRun] at h
  · rw [modifyRun_archive_eq _ _ _ _ hids] at h
    exact (Except.ok.inj h).symm

/-- C4: with the archive flag set, the batch-modify removal set contains
`INBOX` exactly once — in general whenever the resolved removal list mentions
`INBOX` at most once, and in particular for `removeLabels = ["INBOX"]`
(resolved through any label table) and for `removeLabels = []`, where the
removal set is exactly `["INBOX"]`. -/
theorem c4_archive_inbox_exactly_once :
    (∀ ids addLabel removeLabel idMap req,
        modifyRun ids addLabel removeLabel true idMap = .ok req →
        (resolveLabelIDs (splitCSV removeLabel) idMap).count "INBOX" ≤ 1 →
        req.removeLabelIds.count "INBOX" = 1) ∧
    (∀ ids addLabel idMap, ids ≠ [] →
        (modifyRun ids addLabel "INBOX" true idMap).map
          (fun req => req.removeLabelIds.count "INBOX") = .ok 1) ∧
    (∀ ids addLabel idMap, ids ≠ [] →
        (modifyRun ids addLabel "" true idMap).map
          (fun req => req.removeLabelIds) = .ok ["INBOX"]) := by
  refine ⟨?_, ?_, ?_⟩
  · intro ids addLabel removeLabel idMap req h hle
    rw [modifyRun_archive_elim h]
    by_cases hm : "INBOX" ∈ resolveLabelIDs (splitCSV removeLabel) idMap
    · simp only [if_pos hm]
      have h1 : 0 < (resolveLabelIDs (splitCSV removeLabel) idMap).count "INBOX" :=
        List.count_pos_iff.2 hm
      omega
    · simp only [if_neg hm]
      have h0 : (resolveLabelIDs (splitCSV removeLabel) idMap).count "INBOX" = 0 :=
        List.count_eq_zero.2 hm
      rw [List.count_append, h0]
      rfl
  · intro ids addLabel idMap hids
    rw [modifyRun_archive_eq _ _ _ _ hids]
    have hsplit : splitCSV "INBOX" = ["INBOX"] := rfl
    rw [hsplit]
    simp only [Except.map]
    rcases hf : idMap.find? (fun e => e.1 = "INBOX") with _ | e
    · simp [resolveLabelIDs, hf]
    · by_cases he : e.2 = "INBOX"
      · simp [resolveLabelIDs, hf, he]
      · have hne : ¬("INBOX" = e.2) := fun hh => he hh.symm
        simp [resolveLabelIDs, hf, he, hne, List.count_cons]
  · intro ids addLabel idMap hids
    rw [modifyRun_archive_eq _ _ _ _ hids]
    have hsplit : splitCSV "" = [] := rfl
    rw [hsplit]
    simp [resolveLabelIDs, Except.map]

/-- C10: the archive merge changes nothing except possibly appending
`INBOX` at the end of the resolved removal list — when `INBOX` is already
present the removal list is unchanged — and never alters the resolved
add-label list or the message-ID list. -/
theorem c10_archive_frame :
    ∀ ids addLabel removeLabel idMap req,
      modifyRun ids addLabel removeLabel true idMap = .ok req →
      req.ids = ids ∧
      req.addLabelIds = resolveLabelIDs (splitCSV addLabel) idMap ∧
      ("INBOX" ∈ resolveLabelIDs (splitCSV removeLabel) idMap →
        req.removeLabelIds = resolveLabelIDs (splitCSV removeLabel) idMap) ∧
      ("INBOX" ∉ resolveLabelIDs (splitCSV removeLabel) idMap →
        req.removeLabelIds = resolveLabelIDs (splitCSV removeLabel) idMap ++ ["INBOX"]) := by
  intro ids addLabel removeLabel idMap req h
  rw [modifyRun_archive_elim h]
  refine ⟨rfl, rfl, fun hm => ?_, fun hm => ?_⟩
  · simp [if_pos hm]
  · simp [if_neg hm]

/-- C5: whenever the MIME tree contains a decodable `text/plain` candidate
anywhere and a `text/html` part anywhere, the Body Selector returns decoded
plain-text content (from a `text/plain` part) with the fallback flag unset;
the HTML fallback is used only when no `text/plain` candidate contributes. -/
theorem c5_plain_text_preferred :
    (∀ t : MessagePart,
        (∃ p ∈ allParts t, (plainBody p).isSome) →
        (∃ q ∈ allParts t, (htmlBody q).isSome) →
        (bestBodyForDisplay t).2 = false ∧
        ∃ p ∈ allParts t, p.mimeType = "text/plain" ∧
          plainBody p = some (bestBodyForDisplay t).1) ∧
    (∀ t : MessagePart, (bestBodyForDisplay t).2 = true →
        ∀ p ∈ allParts t, plainBody p = none) := by
  constructor
  · intro t hp _hq
    rcases hp with ⟨p0, hp0mem, hp0some⟩
    rcases hfs : (allParts t).findSome? plainBody with _ | s
    · rw [List.findSome?_eq_none_iff] at hfs
      rw [hfs p0 hp0mem] at hp0some
      simp at hp0some
    · constructor
      · simp [bestBodyForDisplay, hfs]
      · rcases List.exists_of_findSome?_eq_some hfs with ⟨p, hpmem, hpeq⟩
        refine ⟨p, hpmem, ?_, ?_⟩
        · by_contra hne
          rw [plainBody, if_neg hne] at hpeq
          exact Option.noConfusion hpeq
        · rw [hpeq]
          simp [bestBodyForDisplay, hfs]
  · intro t hflag p hpmem
    rcases hfs : (allParts t).findSome? plainBody with _ | s
    · rw [List.findSome?_eq_none_iff] at hfs
      exact hfs p hpmem
    · exfalso
      simp [bestBodyForDisplay, hfs] at hflag

theorem c4_witness :
    modifyRun ["m1"] "" "INBOX" true [("INBOX", "INBOX")] =
      .ok ⟨["m1"], [], ["INBOX"]⟩ ∧
    (resolveLabelIDs (splitCSV "INBOX") [("INBOX", "INBOX")]).count "INBOX" ≤ 1 ∧
    (⟨["m1"], [], ["INBOX"]⟩ : BatchModifyRequest).removeLabelIds.count "INBOX" = 1 :=
  ⟨rfl, by decide,
   c4_archive_inbox_exactly_once.1 ["m1"] "" "INBOX" [("INBOX", "INBOX")]
     ⟨["m1"], [], ["INBOX"]⟩ rfl (by decide)⟩

theorem c10_witness :
    modifyRun ["m1"] "add1" "rem1" true [("add1", "Label_1"), ("rem1", "Label_2")] =
      .ok ⟨["m1"], ["Label_1"], ["Label_2", "INBOX"]⟩ ∧
    ((⟨["m1"], ["Label_1"], ["Label_2", "INBOX"]⟩ : BatchModifyRequest).ids = ["m1"] ∧
     (⟨["m1"], ["Label_1"], ["Label_2", "INBOX"]⟩ : BatchModifyRequest).addLabelIds =
       resolveLabelIDs (splitCSV "add1") [("add1", "Label_1"), ("rem1", "Label_2")] ∧
     ("INBOX" ∈ resolveLabelIDs (splitCSV "rem1") [("add1", "Label_1"), ("rem1", "Label_2")] →
       (⟨["m1"], ["Label_1"], ["Label_2", "INBOX"]⟩ : BatchModifyRequest).removeLabelIds =
         resolveLabelIDs (splitCSV "rem1") [("add1", "Label_1"), ("rem1", "Label_2")]) ∧
     ("INBOX" ∉ resolveLabelIDs (splitCSV "rem1") [("add1", "Label_1"), ("rem1", "Label_2")] →
       (⟨["m1"], ["Label_1"], ["Label_2", "INBOX"]⟩ : BatchModifyRequest).removeLabelIds =
         resolveLabelIDs (splitCSV "rem1") [("add1", "Label_1"), ("rem1", "Label_2")] ++
           ["INBOX"])) :=
  ⟨rfl,
   c10_archive_frame ["m1"] "add1" "rem1" [("add1", "Label_1"), ("rem1", "Label_2")]
     ⟨["m1"], ["Label_1"], ["Label_2", "INBOX"]⟩ rfl⟩

theorem c5_witness :
    (∃ p ∈ allParts payloadBoth, (plainBody p).isSome) ∧
    (∃ q ∈ allParts payloadBoth, (htmlBody q).isSome) ∧
    ((bestBodyForDisplay payloadBoth).2 = false ∧
      ∃ p ∈ allParts payloadBoth, p.mimeType = "text/plain" ∧
        plainBody p = some (bestBodyForDisplay payloadBoth).1) := by
  have hp : ∃ p ∈ allParts payloadBoth, (plainBody p).isSome :=
    ⟨plainPartFix, by simp [payloadBoth, allParts, allPartsList, plainPartFix], by decide⟩
  have hq : ∃ q ∈ allParts payloadBoth, (htmlBody q).isSome :=
    ⟨htmlPartFix, by simp [payloadBoth, allParts, allPartsList, htmlPartFix], by decide⟩
  exact ⟨hp, hq, c5_plain_text_preferred.1 payloadBoth hp hq⟩

/-- C6: for every successful forward, the raw outgoing message is the `To`,
`Subject` and `Content-Type` headers each terminated by CRLF, a blank CRLF
line, then the body; and the transport submission is the URL-safe base64
encoding of exactly that byte sequence. -/
theorem c6_crlf_and_web64 :
    ∀ cmd env res calls, forwardRun cmd env = (.ok res, calls) →
      res.rawMsg =
        "To: " ++ res.toAddr ++ "\r\n" ++ ("Subject: " ++ res.subject ++ "\r\n") ++
        ("Content-Type: " ++ res.contentType ++ "\r\n") ++ "\r\n" ++ res.body ∧
      res.raw = encodeWeb64 res.rawMsg := by
  intro cmd env res calls h
  rcases forwardRun_ok_elim h with ⟨payload, st, _h1, _h2, _h3, _h4, hres, _hcalls⟩
  subst hres
  exact ⟨rfl, rfl⟩

/-- C7: the composed subject is the caller-supplied override verbatim when
non-empty, and `Fwd: ` followed by the original subject otherwise; the
original subject is quoted inside the forward preamble of the body. -/
theorem c7_subject_selection :
    ∀ cmd env res calls payload, forwardRun cmd env = (.ok res, calls) →
      env.getMessage (trimSpace cmd.messageID) = some payload →
      (cmd.subject ≠ "" → res.subject = cmd.subject) ∧
      (cmd.subject = "" → res.subject = "Fwd: " ++ headerValue payload "Subject") ∧
      (∃ u v, res.body = u ++ "\nSubject: " ++ headerValue payload "Subject" ++
        ("\nTo: " ++ v)) := by
  intro cmd env res calls payload h hmsg
  rcases forwardRun_ok_elim h with ⟨payload2, st, h1, h2, h3, h4, hres, hcalls⟩
  rw [hmsg] at h3
  have hpp : payload = payload2 := Option.some.inj h3
  subst hpp
  subst hres
  refine ⟨fun hs => ?_, fun hs => ?_, ?_⟩
  · simp [mkSuccess, composeForward, hs]
  · simp [mkSuccess, composeForward, hs]
  · refine ⟨"--" ++ env.boundary ++ "\r\n" ++ "Content-Type: text/plain; charset=utf-8\r\n" ++
        "\r\n" ++ ("---------- Forwarded message ----------" ++ "\nFrom: " ++
        headerValue payload "From" ++ "\nDate: " ++ headerValue payload "Date"),
      headerValue payload "To" ++ "\n\n" ++ (bestBodyForDisplay payload).1 ++
        (addAtts env.getAttachment (trimSpace cmd.messageID) env.boundary
          (collectAttachments payload)).body ++
        ("\r\n--" ++ env.boundary ++ "--\r\n"), ?_⟩
    apply strExt
    simp [mkSuccess, composeForward, forwardBodyOf, String.data_append, List.append_assoc]

/-- C8: the boundary declared in the composed `Content-Type` header is
byte-for-byte the boundary delimiting the serialized body: it opens the
first part and closes the message. -/
theorem c8_boundary_round_trip :
    ∀ cmd env res calls, forwardRun cmd env = (.ok res, calls) →
      extractBoundary res.contentType = some env.boundary ∧
      (∃ rest, res.body = "--" ++ env.boundary ++ "\r\n" ++ rest) ∧
      (∃ lead, res.body = lead ++ ("\r\n--" ++ env.boundary ++ "--\r\n")) := by
  intro cmd env res calls h
  rcases forwardRun_ok_elim h with ⟨payload, st, _h1, _h2, _h3, _h4, hres, _hcalls⟩
  subst hres
  refine ⟨?_, ⟨?_, ?_⟩, ⟨?_, ?_⟩⟩
  · exact extractBoundary_eq env.boundary
  · exact "Content-Type: text/plain; charset=utf-8\r\n" ++ "\r\n" ++ forwardBodyOf payload ++
      (addAtts env.getAttachment (trimSpace cmd.messageID) env.boundary
        (collectAttachments payload)).body ++ ("\r\n--" ++ env.boundary ++ "--\r\n")
  · apply strExt
    simp [mkSuccess, composeForward, String.data_append, List.append_assoc]
  · exact "--" ++ env.boundary ++ "\r\n" ++ "Content-Type: text/plain; charset=utf-8\r\n" ++
      "\r\n" ++ forwardBodyOf payload ++
      (addAtts env.getAttachment (trimSpace cmd.messageID) env.boundary
        (collectAttachments payload)).body
  · apply strExt
    simp [mkSuccess, composeForward, String.data_append, List.append_assoc]

/-- C9: a forward whose message ID or recipient is blank after trimming is
rejected with a usage error and issues no remote call at all. -/
theorem c9_validation_before_remote :
    ∀ cmd env, (trimSpace cmd.messageID = "" ∨ trimSpace cmd.toAddr = "") →
      (∃ msg, (forwardRun cmd env).1 = .error (.usage msg)) ∧
      (forwardRun cmd env).2 = [] := by
  intro cmd env h
  by_cases h1 : trimSpace cmd.messageID = ""
  · exact ⟨⟨"message ID is required", by simp [forwardRun, h1]⟩, by simp [forwardRun, h1]⟩
  · rcases h with h | h2
    · exact absurd h h1
    · exact ⟨⟨"--to is required", by simp [forwardRun, h1, h2]⟩, by simp [forwardRun, h1, h2]⟩

/-- C3: per-attachment fetch or decode failure is non-fatal: provided the
original fetch and the final send succeed, the forward completes with a
success result; every failed attachment contributes a warning naming its
filename, and the embedded parts are exactly the successfully processed
attachments. -/
theorem c3_attachment_failure_nonfatal :
    ∀ cmd env payload st,
      trimSpace cmd.messageID ≠ "" → trimSpace cmd.toAddr ≠ "" →
      env.getMessage (trimSpace cmd.messageID) = some payload →
      env.send = (fun _ => some st) →
      ∃ res calls, forwardRun cmd env = (.ok res, calls) ∧
        res.warnings = (collectAttachments payload).filterMap
          (warnSpec env.getAttachment (trimSpace cmd.messageID) env.boundary) ∧
        res.embedded = ((collectAttachments payload).filter
          (fun att => (addAttachmentToMultipart env.getAttachment (trimSpace cmd.messageID)
            env.boundary att).isOk)).length ∧
        (∀ att ∈ collectAttachments payload,
          env.getAttachment (trimSpace cmd.messageID) att.attachmentId = none →
          ("Warning: failed to attach " ++ att.filename ++ ": " ++ "fetching attachment") ∈
            res.warnings) := by
  intro cmd env payload st h1 h2 h3 h4
  have hw : (mkSuccess env (trimSpace cmd.messageID) (trimSpace cmd.toAddr)
      cmd.subject payload st).warnings =
      (collectAttachments payload).filterMap
        (warnSpec env.getAttachment (trimSpace cmd.messageID) env.boundary) :=
    addAtts_warnings env.getAttachment (trimSpace cmd.messageID) env.boundary
      (collectAttachments payload)
  have hc : (mkSuccess env (trimSpace cmd.messageID) (trimSpace cmd.toAddr)
      cmd.subject payload st).embedded =
      ((collectAttachments payload).filter
        (fun att => (addAttachmentToMultipart env.getAttachment (trimSpace cmd.messageID)
          env.boundary att).isOk)).length :=
    addAtts_count env.getAttachment (trimSpace cmd.messageID) env.boundary
      (collectAttachments payload)
  refine ⟨_, _, forwardRun_ok_intro cmd env payload st h1 h2 h3 h4, hw, hc, ?_⟩
  intro att hatt hfail
  rw [hw]
  refine List.mem_filterMap.2 ⟨att, hatt, ?_⟩
  simp [warnSpec, addAttachmentToMultipart, hfail]

/-- C1 (as amended): a forward in which zero attachments are embedded (none
collected, or every fetch or decode failed) still completes, but the
composed message keeps the multipart/mixed envelope: its body is the
boundary-delimited text part alone. -/
theorem c1_zero_embedded_still_multipart :
    ∀ cmd env res calls payload, forwardRun cmd env = (.ok res, calls) →
      env.getMessage (trimSpace cmd.messageID) = some payload →
      res.embedded = 0 →
      res.contentType = "multipart/mixed; boundary=\"" ++ env.boundary ++ "\"" ∧
      res.body = "--" ++ env.boundary ++ "\r\n" ++
        "Content-Type: text/plain; charset=utf-8\r\n" ++ "\r\n" ++
        forwardBodyOf payload ++ ("\r\n--" ++ env.boundary ++ "--\r\n") := by
  intro cmd env res calls payload h hmsg hzero
  rcases forwardRun_ok_elim h with ⟨payload2, st, h1, h2, h3, h4, hres, hcalls⟩
  rw [hmsg] at h3
  have hpp : payload = payload2 := Option.some.inj h3
  subst hpp
  subst hres
  have hcount : (addAtts env.getAttachment (trimSpace cmd.messageID) env.boundary
      (collectAttachments payload)).count = 0 := hzero
  have hbody := addAtts_body_of_count_zero env.getAttachment (trimSpace cmd.messageID)
    env.boundary (collectAttachments payload) hcount
  refine ⟨rfl, ?_⟩
  apply strExt
  simp [mkSuccess, composeForward, hbody, String.data_append, List.append_assoc]

/-- C2 (as amended): the `attachments` count emitted in the success result
is the number of attachment descriptors collected from the original message,
counting also those whose fetch or decode failed; the number actually
embedded can be strictly smaller. -/
theorem c2_reported_count_is_collected :
    ∀ cmd env res calls payload, forwardRun cmd env = (.ok res, calls) →
      env.getMessage (trimSpace cmd.messageID) = some payload →
      res.attachments = (collectAttachments payload).length ∧
      res.embedded = ((collectAttachments payload).filter
        (fun att => (addAttachmentToMultipart env.getAttachment (trimSpace cmd.messageID)
          env.boundary att).isOk)).length := by
  intro cmd env res calls payload h hmsg
  rcases forwardRun_ok_elim h with ⟨payload2, st, h1, h2, h3, h4, hres, hcalls⟩
  rw [hmsg] at h3
  have hpp : payload = payload2 := Option.some.inj h3
  subst hpp
  subst hres
  exact ⟨rfl, addAtts_count env.getAttachment (trimSpace cmd.messageID) env.boundary
    (collectAttachments payload)⟩

/-- C1 counterexample: forwarding a message with no attachment parts (zero
attachments embedded, zero reported) still yields `Content-Type:
multipart/mixed` with a boundary — not the flat single-part `text/plain`
message the claim asserts. -/
theorem c1_counterexample :
    (forwardRun cmdFwd envNoAtt).1.map ForwardSuccess.embedded = .ok 0 ∧
    (forwardRun cmdFwd envNoAtt).1.map ForwardSuccess.attachments = .ok 0 ∧
    (forwardRun cmdFwd envNoAtt).1.map ForwardSuccess.contentType =
      .ok "multipart/mixed; boundary=\"b1\"" ∧
    "multipart/mixed; boundary=\"b1\"" ≠ "text/plain; charset=utf-8" :=
  ⟨rfl, rfl, rfl, by decide⟩

/-- C2 counterexample: with one collected attachment whose fetch fails, the
emitted `attachments` count is 1 although 0 attachments were embedded — the
count does not reflect only successful embeddings as the claim asserts. -/
theorem c2_counterexample :
    (forwardRun cmdFwd envOneFail).1.map
      (fun r => (r.attachments, r.embedded, r.warnings)) =
      .ok (1, 0, ["Warning: failed to attach file.pdf: fetching attachment"]) ∧
    (1 : Nat) ≠ 0 :=
  ⟨rfl, by decide⟩

theorem c1_witness :
    forwardRun cmdFwd envNoAtt = (.ok resNoAtt, callsNoAtt) ∧
    envNoAtt.getMessage (trimSpace cmdFwd.messageID) = some payloadNoAtt ∧
    resNoAtt.embedded = 0 ∧
    (resNoAtt.contentType = "multipart/mixed; boundary=\"" ++ envNoAtt.boundary ++ "\"" ∧
     resNoAtt.body = "--" ++ envNoAtt.boundary ++ "\r\n" ++
       "Content-Type: text/plain; charset=utf-8\r\n" ++ "\r\n" ++
       forwardBodyOf payloadNoAtt ++ ("\r\n--" ++ envNoAtt.boundary ++ "--\r\n")) :=
  ⟨rfl, rfl, rfl,
   c1_zero_embedded_still_multipart cmdFwd envNoAtt resNoAtt callsNoAtt payloadNoAtt
     rfl rfl rfl⟩

theorem c2_witness :
    forwardRun cmdFwd envOneFail = (.ok resOneFail, callsOneFail) ∧
    envOneFail.getMessage (trimSpace cmdFwd.messageID) = some payloadOneAtt ∧
    (resOneFail.attachments = (collectAttachments payloadOneAtt).length ∧
     resOneFail.embedded = ((collectAttachments payloadOneAtt).filter
       (fun att => (addAttachmentToMultipart envOneFail.getAttachment
         (trimSpace cmdFwd.messageID) envOneFail.boundary att).isOk)).length) :=
  ⟨rfl, rfl,
   c2_reported_count_is_collected cmdFwd envOneFail resOneFail callsOneFail payloadOneAtt
     rfl rfl⟩

theorem c3_witness :
    trimSpace cmdFwd.messageID ≠ "" ∧ trimSpace cmdFwd.toAddr ≠ "" ∧
    envMixed.getMessage (trimSpace cmdFwd.messageID) = some payloadTwoAtt ∧
    envMixed.send = (fun _ => some ("sent123", "t1")) ∧
    (∃ res calls, forwardRun cmdFwd envMixed = (.ok res, calls) ∧
      res.warnings = (collectAttachments payloadTwoAtt).filterMap
        (warnSpec envMixed.getAttachment (trimSpace cmdFwd.messageID) envMixed.boundary) ∧
      res.embedded = ((collectAttachments payloadTwoAtt).filter
        (fun att => (addAttachmentToMultipart envMixed.getAttachment
          (trimSpace cmdFwd.messageID) envMixed.boundary att).isOk)).length ∧
      (∀ att ∈ collectAttachments payloadTwoAtt,
        envMixed.getAttachment (trimSpace cmdFwd.messageID) att.attachmentId = none →
        ("Warning: failed to attach " ++ att.filename ++ ": " ++ "fetching attachment") ∈
          res.warnings)) :=
  ⟨by decide, by decide, rfl, rfl,
   c3_attachment_failure_nonfatal cmdFwd envMixed payloadTwoAtt ("sent123", "t1")
     (by decide) (by decide) rfl rfl⟩

theorem c6_witness :
    resNoAtt.rawMsg =
      "To: " ++ resNoAtt.toAddr ++ "\r\n" ++ ("Subject: " ++ resNoAtt.subject ++ "\r\n") ++
      ("Content-Type: " ++ resNoAtt.contentType ++ "\r\n") ++ "\r\n" ++ resNoAtt.body ∧
    resNoAtt.raw = encodeWeb64 resNoAtt.rawMsg :=
  c6_crlf_and_web64 cmdFwd envNoAtt resNoAtt callsNoAtt rfl

theorem c7_witness :
    (cmdOverride.subject ≠ "" → resOverride.subject = cmdOverride.subject) ∧
    (cmdOverride.subject = "" →
      resOverride.subject = "Fwd: " ++ headerValue payloadTwoAtt "Subject") ∧
    (∃ u v, resOverride.body = u ++ "\nSubject: " ++ headerValue payloadTwoAtt "Subject" ++
      ("\nTo: " ++ v)) :=
  c7_subject_selection cmdOverride envMixed resOverride callsOverride payloadTwoAtt rfl rfl

theorem c8_witness :
    extractBoundary resOneFail.contentType = some envOneFail.boundary ∧
    (∃ rest, resOneFail.body = "--" ++ envOneFail.boundary ++ "\r\n" ++ rest) ∧
    (∃ lead, resOneFail.body = lead ++ ("\r\n--" ++ envOneFail.boundary ++ "--\r\n")) :=
  c8_boundary_round_trip cmdFwd envOneFail resOneFail callsOneFail rfl

theorem c9_witness :
    (trimSpace cmdBlankId.messageID = "" ∨ trimSpace cmdBlankId.toAddr = "") ∧
    ((∃ msg, (forwardRun cmdBlankId envNoAtt).1 = .error (.usage msg)) ∧
     (forwardRun cmdBlankId envNoAtt).2 = []) :=
  ⟨Or.inl (by decide),
   c9_validation_before_remote cmdBlankId envNoAtt (Or.inl (by decide))⟩
